import Mathlib

/-!
# Verification of the NEO data model (`models.py`)

Shallow embedding of `NearEarthObject` and `CloseApproach` from the
repository's `models.py`, together with a model of the datetime helpers
(`cd_to_datetime` / `datetime_to_str`) that the module imports.

Python floats are modelled as a rational number or a not-a-number
sentinel; Python `None` is modelled with `Option`; operations that can
raise (float conversion, datetime parsing, attribute access on `None`)
return `Option`.
-/

/-- A Python float: either the not-a-number sentinel or a (rational) number. -/
inductive PyFloat where
  | nan : PyFloat
  | num : ℚ → PyFloat
deriving DecidableEq, Repr

/-- Python `==` on floats: `nan` compares unequal to everything, itself included. -/
def pyEq : PyFloat → PyFloat → Bool
  | PyFloat.num x, PyFloat.num y => x == y
  | _, _ => false

/-- Value of a decimal digit character, `none` for a non-digit. -/
def charToDigit (c : Char) : Option Nat :=
  if 48 ≤ c.toNat ∧ c.toNat ≤ 57 then some (c.toNat - 48) else none

/-- The decimal digit character for `n` (meaningful for `n < 10`). -/
def digitChar (n : Nat) : Char := Char.ofNat (48 + n)

/-- Parse a run of decimal digits, accumulating into `acc`; returns the value
and the number of digits consumed. -/
def digitsAux : List Char → Nat → Nat → Nat × Nat × List Char
  | [], acc, k => (acc, k, [])
  | c :: cs, acc, k =>
      match charToDigit c with
      | some d => digitsAux cs (acc * 10 + d) (k + 1)
      | none => (acc, k, c :: cs)

/-- Model of Python's builtin `float(s)` on plain decimal strings:
optional sign, digits, optional fractional part.  Returns `none` where
Python raises `ValueError`. -/
def pyFloatOfString (s : String) : Option PyFloat :=
  let (sgn, rest) :=
    match s.data with
    | '-' :: cs => ((-1 : Int), cs)
    | '+' :: cs => ((1 : Int), cs)
    | cs => ((1 : Int), cs)
  let (ip, ik, rest1) := digitsAux rest 0 0
  match rest1 with
  | [] => if ik = 0 then none else some (PyFloat.num (mkRat (sgn * ip) 1))
  | '.' :: cs =>
      let (fp, fk, rest2) := digitsAux cs 0 0
      if rest2 = [] ∧ (ik + fk ≠ 0) then
        some (PyFloat.num (mkRat (sgn * (ip * 10 ^ fk + fp)) (10 ^ fk)))
      else none
  | _ => none

/-- A calendar date-time to minute precision, as stored by `CloseApproach.time`. -/
structure PyDatetime where
  year : Nat
  month : Nat
  day : Nat
  hour : Nat
  minute : Nat
deriving DecidableEq, Repr

/-- The three-letter month abbreviation used by the `%b` format code. -/
def monthAbbrev : Nat → List Char
  | 1 => ['J', 'a', 'n']
  | 2 => ['F', 'e', 'b']
  | 3 => ['M', 'a', 'r']
  | 4 => ['A', 'p', 'r']
  | 5 => ['M', 'a', 'y']
  | 6 => ['J', 'u', 'n']
  | 7 => ['J', 'u', 'l']
  | 8 => ['A', 'u', 'g']
  | 9 => ['S', 'e', 'p']
  | 10 => ['O', 'c', 't']
  | 11 => ['N', 'o', 'v']
  | 12 => ['D', 'e', 'c']
  | _ => []

/-- Recover a month number from its three-letter abbreviation. -/
def monthOfAbbrev (l : List Char) : Option Nat :=
  if l = ['J', 'a', 'n'] then some 1
  else if l = ['F', 'e', 'b'] then some 2
  else if l = ['M', 'a', 'r'] then some 3
  else if l = ['A', 'p', 'r'] then some 4
  else if l = ['M', 'a', 'y'] then some 5
  else if l = ['J', 'u', 'n'] then some 6
  else if l = ['J', 'u', 'l'] then some 7
  else if l = ['A', 'u', 'g'] then some 8
  else if l = ['S', 'e', 'p'] then some 9
  else if l = ['O', 'c', 't'] then some 10
  else if l = ['N', 'o', 'v'] then some 11
  else if l = ['D', 'e', 'c'] then some 12
  else none

/-- Two digit characters as a number. -/
def parse2 (a b : Char) : Option Nat :=
  (charToDigit a).bind fun x => (charToDigit b).map fun y => x * 10 + y

/-- Four digit characters as a number. -/
def parse4 (a b c d : Char) : Option Nat :=
  (charToDigit a).bind fun w => (charToDigit b).bind fun x =>
    (charToDigit c).bind fun y => (charToDigit d).map fun z =>
      ((w * 10 + x) * 10 + y) * 10 + z

/-- Modelled from the spec: the repository's `helpers.cd_to_datetime` is not
in the sources given; per the spec it parses a time string in the fixed
`YYYY-MMM-DD HH:MM` layout (format `%Y-%b-%d %H:%M`) into a date-time,
raising a parse error (here `none`) on anything else. -/
def cd_to_datetime (s : String) : Option PyDatetime :=
  match s.data with
  | [y1, y2, y3, y4, s1, m1, m2, m3, s2, d1, d2, s3, h1, h2, s4, n1, n2] =>
      if s1 = '-' ∧ s2 = '-' ∧ s3 = ' ' ∧ s4 = ':' then
        (parse4 y1 y2 y3 y4).bind fun y =>
        (monthOfAbbrev [m1, m2, m3]).bind fun mo =>
        (parse2 d1 d2).bind fun d =>
        (parse2 h1 h2).bind fun h =>
        (parse2 n1 n2).bind fun n =>
        if 1 ≤ d ∧ d ≤ 31 ∧ h ≤ 23 ∧ n ≤ 59 then
          some (PyDatetime.mk y mo d h n)
        else none
      else none
  | _ => none

/-- `n` rendered as two zero-padded decimal digits. -/
def pad2 (n : Nat) : List Char := [digitChar (n / 10 % 10), digitChar (n % 10)]

/-- `n` rendered as four zero-padded decimal digits. -/
def pad4 (n : Nat) : List Char :=
  [digitChar (n / 1000 % 10), digitChar (n / 100 % 10),
   digitChar (n / 10 % 10), digitChar (n % 10)]

/-- Modelled from the spec: the repository's `helpers.datetime_to_str` is not
in the sources given; per the spec it formats a date-time back to the fixed
`YYYY-MMM-DD HH:MM` layout (no seconds). -/
def datetime_to_str (t : PyDatetime) : String :=
  String.mk (pad4 t.year ++ '-' :: monthAbbrev t.month ++ '-' :: pad2 t.day
    ++ ' ' :: pad2 t.hour ++ ':' :: pad2 t.minute)

mutual
/-- Embedding of the `NearEarthObject` class attribute state.  `name` is
`None` or a string; `approaches` is the list of linked close approaches. -/
inductive NearEarthObject where
  | mk : String → Option String → PyFloat → Bool → List CloseApproach → NearEarthObject

/-- Embedding of the `CloseApproach` class attribute state.  `neo` is `None`
until the database links it. -/
inductive CloseApproach where
  | mk : String → PyDatetime → PyFloat → PyFloat → Option NearEarthObject → CloseApproach
end

def NearEarthObject.designation : NearEarthObject → String
  | NearEarthObject.mk d _ _ _ _ => d

def NearEarthObject.name : NearEarthObject → Option String
  | NearEarthObject.mk _ n _ _ _ => n

def NearEarthObject.diameter : NearEarthObject → PyFloat
  | NearEarthObject.mk _ _ di _ _ => di

def NearEarthObject.hazardous : NearEarthObject → Bool
  | NearEarthObject.mk _ _ _ h _ => h

def NearEarthObject.approaches : NearEarthObject → List CloseApproach
  | NearEarthObject.mk _ _ _ _ a => a

def CloseApproach.designationRef : CloseApproach → String
  | CloseApproach.mk d _ _ _ _ => d

def CloseApproach.time : CloseApproach → PyDatetime
  | CloseApproach.mk _ t _ _ _ => t

def CloseApproach.distance : CloseApproach → PyFloat
  | CloseApproach.mk _ _ di _ _ => di

def CloseApproach.velocity : CloseApproach → PyFloat
  | CloseApproach.mk _ _ _ v _ => v

def CloseApproach.neo : CloseApproach → Option NearEarthObject
  | CloseApproach.mk _ _ _ _ n => n

/-- `NearEarthObject.__init__`: stores the designation unchanged, normalizes
an empty name to `None`, an empty diameter to `nan` (otherwise converts it
with `float`, whose failure propagates), compares the hazardous string to
the literal `"Y"`, and starts with an empty approaches list. -/
def mkNearEarthObject (designation name diameter hazardous : String) :
    Option NearEarthObject :=
  let nameVal : Option String := if name.length ≠ 0 then some name else none
  let diamOpt : Option PyFloat :=
    if diameter.length ≠ 0 then pyFloatOfString diameter else some PyFloat.nan
  diamOpt.map fun di =>
    NearEarthObject.mk designation nameVal di (hazardous == "Y") []

/-- `CloseApproach.__init__`: stores the designation string, parses the time
with `cd_to_datetime`, converts distance and velocity with `float`, and sets
`neo` to `None`.  Any parse or conversion failure propagates. -/
def mkCloseApproach (designation time distance velocity : String) :
    Option CloseApproach :=
  (cd_to_datetime time).bind fun t =>
  (pyFloatOfString distance).bind fun di =>
  (pyFloatOfString velocity).map fun v =>
  CloseApproach.mk designation t di v none

/-- Smallest exponent `k` (searched up to the given fuel) with `den ∣ 10 ^ k`. -/
def decExpAux (den : Nat) : Nat → Nat → Option Nat
  | k, fuel + 1 => if den ∣ 10 ^ k then some k else decExpAux den (k + 1) fuel
  | k, 0 => if den ∣ 10 ^ k then some k else none

/-- Model of Python's string conversion of a float value: `nan` prints as
`"nan"`; a number prints sign, integer part, a dot and its (minimal,
zero-padded) fractional digits, with `".0"` when the value is integral. -/
def pyFloatRepr : PyFloat → String
  | PyFloat.nan => "nan"
  | PyFloat.num q =>
      let sgn : String := if q.num < 0 then "-" else ""
      match decExpAux q.den 0 64 with
      | some 0 => sgn ++ String.mk (Nat.toDigits 10 q.num.natAbs) ++ ".0"
      | some (k + 1) =>
          let e := 10 ^ (k + 1)
          let scaled := q.num.natAbs * (e / q.den)
          let frDigits := Nat.toDigits 10 (scaled % e)
          sgn ++ String.mk (Nat.toDigits 10 (scaled / e)) ++ "." ++
            String.mk (List.replicate (k + 1 - frDigits.length) '0' ++ frDigits)
      | none =>
          sgn ++ String.mk (Nat.toDigits 10 q.num.natAbs) ++ "/" ++
            String.mk (Nat.toDigits 10 q.den)

/-- Python string conversion of the `name` attribute inside an f-string:
`None` prints as the literal text `"None"`. -/
def pyStrOfName : Option String → String
  | none => "None"
  | some s => s

/-- `NearEarthObject.fullname`: the string `"<designation> (<name>)"`. -/
def NearEarthObject.fullname (n : NearEarthObject) : String :=
  n.designation ++ " (" ++ pyStrOfName n.name ++ ")"

/-- `NearEarthObject.__str__`: the human-readable summary string. -/
def NearEarthObject.toStr (n : NearEarthObject) : String :=
  "NEO " ++ n.fullname ++ " has a diameter of " ++ pyFloatRepr n.diameter ++
    " km and " ++ (if n.hazardous then "is" else "is not") ++ " potentially hazardous"

/-- Python string conversion of the `neo` attribute inside an f-string:
`None` prints as `"None"`, a linked NEO prints via its `__str__`. -/
def pyStrOfNeoRef : Option NearEarthObject → String
  | none => "None"
  | some n => n.toStr

/-- `CloseApproach.fullname`: `"<designation>: <str(neo)>"`. -/
def CloseApproach.fullname (ca : CloseApproach) : String :=
  ca.designationRef ++ ": " ++ pyStrOfNeoRef ca.neo

/-- `CloseApproach.time_str`: the stored time formatted by `datetime_to_str`. -/
def CloseApproach.time_str (ca : CloseApproach) : String :=
  datetime_to_str ca.time

/-- A Python value as it appears in the serialization dictionaries. -/
inductive JValue where
  | jstr : String → JValue
  | jfloat : PyFloat → JValue
  | jbool : Bool → JValue
  | jnone : JValue
  | jobj : List (String × JValue) → JValue

/-- The `name` attribute as a dictionary value (`None` or a string). -/
def jvalOfName : Option String → JValue
  | none => JValue.jnone
  | some s => JValue.jstr s

/-- `CloseApproach.json_serialize`: the nested dictionary, in insertion
order; accessing `self.neo.designation` on an unlinked approach raises
(`none` here). -/
def CloseApproach.json_serialize (ca : CloseApproach) : Option (List (String × JValue)) :=
  ca.neo.map fun n =>
    [("datetime_utc", JValue.jstr ca.time_str),
     ("distance_au", JValue.jfloat ca.distance),
     ("velocity_km_s", JValue.jfloat ca.velocity),
     ("neo", JValue.jobj
        [("designation", JValue.jstr n.designation),
         ("name", jvalOfName n.name),
         ("diameter_km", JValue.jfloat n.diameter),
         ("potentially_hazardous", JValue.jbool n.hazardous)])]

/-- `CloseApproach.csv_serialize`: the flat dictionary, in insertion order;
accessing `self.neo.designation` on an unlinked approach raises (`none`). -/
def CloseApproach.csv_serialize (ca : CloseApproach) : Option (List (String × JValue)) :=
  ca.neo.map fun n =>
    [("datetime_utc", JValue.jstr ca.time_str),
     ("distance_au", JValue.jfloat ca.distance),
     ("velocity_km_s", JValue.jfloat ca.velocity),
     ("designation", JValue.jstr n.designation),
     ("name", jvalOfName n.name),
     ("diameter_km", JValue.jfloat n.diameter),
     ("potentially_hazardous", JValue.jbool n.hazardous)]

/-- Dictionary lookup (`d[k]`), `none` when the key is absent. -/
def dictGet (l : List (String × JValue)) (k : String) : Option JValue :=
  (l.find? fun p => p.1 == k).map fun p => p.2

/-- The Python expression `approach.json_serialize()['neo']['designation']`,
with `none` for every failure mode along the way. -/
def jsonNeoDesignation (ca : CloseApproach) : Option JValue :=
  ca.json_serialize.bind fun fields =>
    (dictGet fields "neo").bind fun v =>
      match v with
      | JValue.jobj nf => dictGet nf "designation"
      | _ => none


/-! ## Helper lemmas -/

lemma string_length_eq_zero {s : String} : s.length = 0 ↔ s = "" := by
  cases s with
  | mk l =>
    cases l with
    | nil => simp [String.length]
    | cons c cs =>
      simp only [String.length]
      constructor
      · intro h; simp at h
      · intro h
        have h2 := congrArg String.data h
        simp at h2

/-- Inversion for `mkNearEarthObject`: a successful construction determines
every attribute of the resulting object. -/
lemma mkNearEarthObject_eq_some {d nm di hz : String} {n : NearEarthObject}
    (h : mkNearEarthObject d nm di hz = some n) :
    ∃ x, (if di.length ≠ 0 then pyFloatOfString di else some PyFloat.nan) = some x ∧
      n = NearEarthObject.mk d (if nm.length ≠ 0 then some nm else none) x
            (hz == "Y") [] := by
  simp only [mkNearEarthObject, Option.map_eq_some'] at h
  obtain ⟨x, hx, hn⟩ := h
  exact ⟨x, hx, hn.symm⟩

/-! ## Claim theorems -/

/-- C1: for every `NearEarthObject` constructed from a hazardous input
string, the stored `hazardous` attribute is `true` iff the input string is
exactly `"Y"`. -/
theorem hazardous_iff_input_Y (d nm di hz : String) (n : NearEarthObject)
    (h : mkNearEarthObject d nm di hz = some n) :
    n.hazardous = true ↔ hz = "Y" := by
  obtain ⟨x, hx, rfl⟩ := mkNearEarthObject_eq_some h
  simp [NearEarthObject.hazardous]

/-- Witness for C1: a concrete construction with input `"N"` gives
`hazardous = false` (so not `"Y"`), matching the theorem. -/
theorem hazardous_iff_input_Y_witness :
    (NearEarthObject.hazardous
      (NearEarthObject.mk "433" (some "Eros") (PyFloat.num (mkRat 1684 100)) false []) = true
     ↔ ("N" : String) = "Y") :=
  hazardous_iff_input_Y "433" "Eros" "16.84" "N" _ rfl

/-- C2: construction from an empty name string stores `name = None` (never
the empty string), and construction from a non-empty name string stores the
input unchanged. -/
theorem name_normalization (d nm di hz : String) (n : NearEarthObject)
    (h : mkNearEarthObject d nm di hz = some n) :
    (nm = "" → n.name = none) ∧ (nm ≠ "" → n.name = some nm) := by
  obtain ⟨x, hx, rfl⟩ := mkNearEarthObject_eq_some h
  constructor
  · intro he
    subst he
    simp [NearEarthObject.name]
  · intro hne
    have : nm.length ≠ 0 := fun hl => hne (string_length_eq_zero.mp hl)
    simp [NearEarthObject.name, this]

/-- Witness for C2: concrete constructions with an empty and a non-empty
name input. -/
theorem name_normalization_witness :
    ((("" : String) = "" →
        NearEarthObject.name
          (NearEarthObject.mk "433" none PyFloat.nan true []) = none) ∧
     (("" : String) ≠ "" →
        NearEarthObject.name
          (NearEarthObject.mk "433" none PyFloat.nan true []) = some "")) :=
  name_normalization "433" "" "" "Y" _ rfl

/-- C7: whenever the `name` attribute is present (not `None`), `fullname`
is the string `"<designation> (<name>)"`. -/
theorem fullname_with_name (n : NearEarthObject) (nm : String)
    (h : n.name = some nm) :
    n.fullname = n.designation ++ " (" ++ nm ++ ")" := by
  cases n with
  | mk d na di hz ap =>
    simp only [NearEarthObject.name] at h
    subst h
    rfl

/-- Witness for C7: the NEO built from designation `"433"`, name `"Eros"`,
diameter `"16.84"`, hazardous `"N"` has `fullname = "433 (Eros)"`. -/
theorem fullname_with_name_witness :
    NearEarthObject.fullname
      (NearEarthObject.mk "433" (some "Eros") (PyFloat.num (mkRat 1684 100)) false [])
      = "433 (Eros)" := by
  rw [fullname_with_name
    (NearEarthObject.mk "433" (some "Eros") (PyFloat.num (mkRat 1684 100)) false [])
    "Eros" rfl]
  rfl

/-- C10: a `NearEarthObject` constructed from an empty name string has
`fullname = "<designation> (None)"` — the literal text `None` in the
parentheses. -/
theorem fullname_empty_name (d di hz : String) (n : NearEarthObject)
    (h : mkNearEarthObject d "" di hz = some n) :
    n.fullname = d ++ " (None)" := by
  obtain ⟨x, hx, rfl⟩ := mkNearEarthObject_eq_some h
  show (d ++ " (" ++ pyStrOfName (if ("" : String).length ≠ 0 then some "" else none) ++ ")") = d ++ " (None)"
  have h1 : (if ("" : String).length ≠ 0 then some ("" : String) else none) = none := by
    simp [String.length]
  rw [h1]
  show d ++ " (" ++ "None" ++ ")" = d ++ " (None)"
  have h3 : (" (" ++ ("None" ++ ")") : String) = " (None)" := rfl
  rw [String.append_assoc, String.append_assoc, h3]

/-- Witness for C10: a concrete NEO built from an empty name. -/
theorem fullname_empty_name_witness :
    NearEarthObject.fullname
      (NearEarthObject.mk "433" none PyFloat.nan true []) = "433" ++ " (None)" :=
  fullname_empty_name "433" "" "Y" _ rfl

/-- C9 counterexample: the constructor does not validate the designation, so
it is not true that every constructed NEO has a non-empty designation — the
input `""` is stored as-is. -/
theorem designation_nonempty_cex :
    ¬ ∀ (d nm di hz : String) (n : NearEarthObject),
        mkNearEarthObject d nm di hz = some n → n.designation ≠ "" := by
  intro hall
  exact hall "" "x" "1" "N"
    (NearEarthObject.mk "" (some "x") (PyFloat.num (mkRat 1 1)) false []) rfl rfl

/-- C9 (amended): the constructor stores the designation unchanged (so it is
non-empty whenever the input is), and the `approaches` collection starts
empty. -/
theorem mk_designation_approaches (d nm di hz : String) (n : NearEarthObject)
    (h : mkNearEarthObject d nm di hz = some n) :
    n.designation = d ∧ n.approaches = [] ∧ (d ≠ "" → n.designation ≠ "") := by
  obtain ⟨x, hx, rfl⟩ := mkNearEarthObject_eq_some h
  refine ⟨rfl, rfl, ?_⟩
  intro hd
  simpa [NearEarthObject.designation] using hd

/-- Witness for C9 (amended): a concrete construction. -/
theorem mk_designation_approaches_witness :
    (NearEarthObject.designation
        (NearEarthObject.mk "433" none PyFloat.nan true []) = "433" ∧
     NearEarthObject.approaches
        (NearEarthObject.mk "433" none PyFloat.nan true []) = [] ∧
     (("433" : String) ≠ "" →
       NearEarthObject.designation
          (NearEarthObject.mk "433" none PyFloat.nan true []) ≠ "")) :=
  mk_designation_approaches "433" "" "" "Y" _ rfl

/-- C4: for a linked approach, `json_serialize` returns exactly the nested
dictionary (keys `datetime_utc`, `distance_au`, `velocity_km_s`, `neo`, the
latter holding the NEO's four fields), indexing it at `'neo'` then
`'designation'` recovers the linked NEO's designation, and `csv_serialize`
returns the flat variant with the NEO fields inlined as siblings. -/
theorem serialize_shapes_linked (ca : CloseApproach) (n : NearEarthObject)
    (h : ca.neo = some n) :
    ca.json_serialize = some
      [("datetime_utc", JValue.jstr ca.time_str),
       ("distance_au", JValue.jfloat ca.distance),
       ("velocity_km_s", JValue.jfloat ca.velocity),
       ("neo", JValue.jobj
          [("designation", JValue.jstr n.designation),
           ("name", jvalOfName n.name),
           ("diameter_km", JValue.jfloat n.diameter),
           ("potentially_hazardous", JValue.jbool n.hazardous)])] ∧
    jsonNeoDesignation ca = some (JValue.jstr n.designation) ∧
    ca.csv_serialize = some
      [("datetime_utc", JValue.jstr ca.time_str),
       ("distance_au", JValue.jfloat ca.distance),
       ("velocity_km_s", JValue.jfloat ca.velocity),
       ("designation", JValue.jstr n.designation),
       ("name", jvalOfName n.name),
       ("diameter_km", JValue.jfloat n.diameter),
       ("potentially_hazardous", JValue.jbool n.hazardous)] := by
  cases ca with
  | mk d t di v ne =>
    simp only [CloseApproach.neo] at h
    subst h
    exact ⟨rfl, rfl, rfl⟩

/-- Witness for C4: a concrete linked close approach. -/
theorem serialize_shapes_linked_witness :
    (CloseApproach.json_serialize
      (CloseApproach.mk "433" (PyDatetime.mk 2020 1 1 12 30)
        (PyFloat.num (mkRat 2 100)) (PyFloat.num (mkRat 562 100))
        (some (NearEarthObject.mk "433" (some "Eros") PyFloat.nan false []))) = some
      [("datetime_utc", JValue.jstr (CloseApproach.time_str
          (CloseApproach.mk "433" (PyDatetime.mk 2020 1 1 12 30)
            (PyFloat.num (mkRat 2 100)) (PyFloat.num (mkRat 562 100))
            (some (NearEarthObject.mk "433" (some "Eros") PyFloat.nan false []))))),
       ("distance_au", JValue.jfloat (PyFloat.num (mkRat 2 100))),
       ("velocity_km_s", JValue.jfloat (PyFloat.num (mkRat 562 100))),
       ("neo", JValue.jobj
          [("designation", JValue.jstr "433"),
           ("name", jvalOfName (some "Eros")),
           ("diameter_km", JValue.jfloat PyFloat.nan),
           ("potentially_hazardous", JValue.jbool false)])] ∧
     jsonNeoDesignation
      (CloseApproach.mk "433" (PyDatetime.mk 2020 1 1 12 30)
        (PyFloat.num (mkRat 2 100)) (PyFloat.num (mkRat 562 100))
        (some (NearEarthObject.mk "433" (some "Eros") PyFloat.nan false [])))
        = some (JValue.jstr "433") ∧
     CloseApproach.csv_serialize
      (CloseApproach.mk "433" (PyDatetime.mk 2020 1 1 12 30)
        (PyFloat.num (mkRat 2 100)) (PyFloat.num (mkRat 562 100))
        (some (NearEarthObject.mk "433" (some "Eros") PyFloat.nan false []))) = some
      [("datetime_utc", JValue.jstr (CloseApproach.time_str
          (CloseApproach.mk "433" (PyDatetime.mk 2020 1 1 12 30)
            (PyFloat.num (mkRat 2 100)) (PyFloat.num (mkRat 562 100))
            (some (NearEarthObject.mk "433" (some "Eros") PyFloat.nan false []))))),
       ("distance_au", JValue.jfloat (PyFloat.num (mkRat 2 100))),
       ("velocity_km_s", JValue.jfloat (PyFloat.num (mkRat 562 100))),
       ("designation", JValue.jstr "433"),
       ("name", jvalOfName (some "Eros")),
       ("diameter_km", JValue.jfloat PyFloat.nan),
       ("potentially_hazardous", JValue.jbool false)]) :=
  serialize_shapes_linked _ (NearEarthObject.mk "433" (some "Eros") PyFloat.nan false []) rfl

/-- C5: serializing an unlinked approach (null `neo`) fails with the
null-reference error, and serializing a linked approach succeeds, for both
variants. -/
theorem serialize_requires_link (ca : CloseApproach) :
    (ca.neo = none → ca.json_serialize = none ∧ ca.csv_serialize = none) ∧
    (∀ n, ca.neo = some n →
      ca.json_serialize.isSome = true ∧ ca.csv_serialize.isSome = true) := by
  cases ca with
  | mk d t di v ne =>
    cases ne with
    | none =>
      exact ⟨fun _ => ⟨rfl, rfl⟩, fun n h => by
        simp [CloseApproach.neo] at h⟩
    | some m =>
      constructor
      · intro h
        simp [CloseApproach.neo] at h
      · intro n h
        exact ⟨rfl, rfl⟩

/-- Witness for C5: a concrete unlinked approach serializes to the error
(`none`) and the same approach, once linked, serializes successfully. -/
theorem serialize_requires_link_witness :
    (CloseApproach.json_serialize
        (CloseApproach.mk "433" (PyDatetime.mk 2020 1 1 12 30)
          (PyFloat.num (mkRat 2 100)) (PyFloat.num (mkRat 562 100)) none) = none ∧
     CloseApproach.csv_serialize
        (CloseApproach.mk "433" (PyDatetime.mk 2020 1 1 12 30)
          (PyFloat.num (mkRat 2 100)) (PyFloat.num (mkRat 562 100)) none) = none) ∧
    ((CloseApproach.json_serialize
        (CloseApproach.mk "433" (PyDatetime.mk 2020 1 1 12 30)
          (PyFloat.num (mkRat 2 100)) (PyFloat.num (mkRat 562 100))
          (some (NearEarthObject.mk "433" (some "Eros") PyFloat.nan false [])))).isSome = true ∧
     (CloseApproach.csv_serialize
        (CloseApproach.mk "433" (PyDatetime.mk 2020 1 1 12 30)
          (PyFloat.num (mkRat 2 100)) (PyFloat.num (mkRat 562 100))
          (some (NearEarthObject.mk "433" (some "Eros") PyFloat.nan false [])))).isSome = true) :=
  ⟨(serialize_requires_link
      (CloseApproach.mk "433" (PyDatetime.mk 2020 1 1 12 30)
        (PyFloat.num (mkRat 2 100)) (PyFloat.num (mkRat 562 100)) none)).1 rfl,
   (serialize_requires_link
      (CloseApproach.mk "433" (PyDatetime.mk 2020 1 1 12 30)
        (PyFloat.num (mkRat 2 100)) (PyFloat.num (mkRat 562 100))
        (some (NearEarthObject.mk "433" (some "Eros") PyFloat.nan false [])))).2
     (NearEarthObject.mk "433" (some "Eros") PyFloat.nan false []) rfl⟩

/-- C8: `CloseApproach.fullname` is the designation string, a colon and a
space, followed by the linked NEO's full `__str__` summary (not merely its
name). -/
theorem approach_fullname_embeds_neo_str (ca : CloseApproach) (n : NearEarthObject)
    (h : ca.neo = some n) :
    ca.fullname = ca.designationRef ++ ": " ++ n.toStr := by
  cases ca with
  | mk d t di v ne =>
    simp only [CloseApproach.neo] at h
    subst h
    rfl

/-- Witness for C8: a concrete linked approach. -/
theorem approach_fullname_embeds_neo_str_witness :
    CloseApproach.fullname
      (CloseApproach.mk "433" (PyDatetime.mk 2020 1 1 12 30)
        (PyFloat.num (mkRat 2 100)) (PyFloat.num (mkRat 562 100))
        (some (NearEarthObject.mk "433" (some "Eros") PyFloat.nan false [])))
      = "433" ++ ": " ++
        NearEarthObject.toStr (NearEarthObject.mk "433" (some "Eros") PyFloat.nan false []) :=
  approach_fullname_embeds_neo_str _ (NearEarthObject.mk "433" (some "Eros") PyFloat.nan false []) rfl

/-- C3: construction from an empty diameter string stores the not-a-number
sentinel — which is not equal to itself under Python `==` and in particular
not equal to `0.0` — while a non-empty diameter string that converts stores
its float conversion. -/
theorem diameter_normalization (d nm di hz : String) (n : NearEarthObject)
    (h : mkNearEarthObject d nm di hz = some n) :
    (di = "" → n.diameter = PyFloat.nan ∧
      pyEq n.diameter n.diameter = false ∧
      pyEq n.diameter (PyFloat.num 0) = false) ∧
    (∀ x, di ≠ "" → pyFloatOfString di = some x → n.diameter = x) := by
  obtain ⟨x, hx, rfl⟩ := mkNearEarthObject_eq_some h
  constructor
  · intro he
    subst he
    simp only [String.length, ne_eq] at hx
    simp at hx
    subst hx
    exact ⟨rfl, rfl, rfl⟩
  · intro y hne hy
    have hlen : di.length ≠ 0 := fun hl => hne (string_length_eq_zero.mp hl)
    rw [if_pos hlen] at hx
    rw [hy] at hx
    simp only [NearEarthObject.diameter]
    exact (Option.some_inj.mp hx).symm

/-- Witness for C3: constructions with an empty and with a numeric,
non-empty diameter string. -/
theorem diameter_normalization_witness :
    (NearEarthObject.diameter (NearEarthObject.mk "433" none PyFloat.nan true [])
        = PyFloat.nan ∧
     pyEq (NearEarthObject.diameter (NearEarthObject.mk "433" none PyFloat.nan true []))
        (NearEarthObject.diameter (NearEarthObject.mk "433" none PyFloat.nan true []))
        = false ∧
     pyEq (NearEarthObject.diameter (NearEarthObject.mk "433" none PyFloat.nan true []))
        (PyFloat.num 0) = false) ∧
    NearEarthObject.diameter
      (NearEarthObject.mk "433" (some "Eros") (PyFloat.num (mkRat 1684 100)) false [])
      = PyFloat.num (mkRat 1684 100) :=
  ⟨(diameter_normalization "433" "" "" "Y" _ rfl).1 rfl,
   (diameter_normalization "433" "Eros" "16.84" "N" _ rfl).2
     (PyFloat.num (mkRat 1684 100)) (by decide) rfl⟩

/-! ## Round-trip lemmas for the datetime layout -/

lemma charToDigit_inv {c : Char} {d : Nat} (h : charToDigit c = some d) :
    digitChar d = c ∧ d ≤ 9 := by
  unfold charToDigit at h
  split at h
  · rename_i hc
    injection h with h
    subst h
    refine ⟨?_, by omega⟩
    unfold digitChar
    have h48 : 48 + (c.toNat - 48) = c.toNat := by omega
    rw [h48]
    exact Char.ofNat_toNat c
  · exact absurd h (by simp)

lemma parse2_inv {a b : Char} {n : Nat} (h : parse2 a b = some n) :
    n ≤ 99 ∧ pad2 n = [a, b] := by
  unfold parse2 at h
  cases ha : charToDigit a with
  | none => rw [ha] at h; simp at h
  | some x =>
    rw [ha] at h
    cases hb : charToDigit b with
    | none => rw [hb] at h; simp at h
    | some y =>
      rw [hb] at h
      simp only [Option.some_bind, Option.map_some'] at h
      injection h with h
      obtain ⟨hda, hxa⟩ := charToDigit_inv ha
      obtain ⟨hdb, hyb⟩ := charToDigit_inv hb
      subst h
      refine ⟨by omega, ?_⟩
      unfold pad2
      have e1 : (x * 10 + y) / 10 % 10 = x := by omega
      have e2 : (x * 10 + y) % 10 = y := by omega
      rw [e1, e2, hda, hdb]

lemma parse4_inv {a b c d : Char} {n : Nat} (h : parse4 a b c d = some n) :
    n ≤ 9999 ∧ pad4 n = [a, b, c, d] := by
  unfold parse4 at h
  cases ha : charToDigit a with
  | none => rw [ha] at h; simp at h
  | some w =>
    rw [ha] at h
    cases hb : charToDigit b with
    | none => rw [hb] at h; simp at h
    | some x =>
      rw [hb] at h
      cases hc : charToDigit c with
      | none => rw [hc] at h; simp at h
      | some y =>
        rw [hc] at h
        cases hd : charToDigit d with
        | none => rw [hd] at h; simp at h
        | some z =>
          rw [hd] at h
          simp only [Option.some_bind, Option.map_some'] at h
          injection h with h
          obtain ⟨hda, hwa⟩ := charToDigit_inv ha
          obtain ⟨hdb, hxb⟩ := charToDigit_inv hb
          obtain ⟨hdc, hyc⟩ := charToDigit_inv hc
          obtain ⟨hdd, hzd⟩ := charToDigit_inv hd
          subst h
          refine ⟨by omega, ?_⟩
          unfold pad4
          have e1 : (((w * 10 + x) * 10 + y) * 10 + z) / 1000 % 10 = w := by omega
          have e2 : (((w * 10 + x) * 10 + y) * 10 + z) / 100 % 10 = x := by omega
          have e3 : (((w * 10 + x) * 10 + y) * 10 + z) / 10 % 10 = y := by omega
          have e4 : (((w * 10 + x) * 10 + y) * 10 + z) % 10 = z := by omega
          rw [e1, e2, e3, e4, hda, hdb, hdc, hdd]

lemma monthOfAbbrev_inv {l : List Char} {m : Nat} (h : monthOfAbbrev l = some m) :
    1 ≤ m ∧ m ≤ 12 ∧ monthAbbrev m = l := by
  unfold monthOfAbbrev at h
  by_cases h1 : l = ['J', 'a', 'n']
  · subst h1; rw [if_pos rfl] at h; injection h with h; subst h; decide
  rw [if_neg h1] at h
  by_cases h2 : l = ['F', 'e', 'b']
  · subst h2; rw [if_pos rfl] at h; injection h with h; subst h; decide
  rw [if_neg h2] at h
  by_cases h3 : l = ['M', 'a', 'r']
  · subst h3; rw [if_pos rfl] at h; injection h with h; subst h; decide
  rw [if_neg h3] at h
  by_cases h4 : l = ['A', 'p', 'r']
  · subst h4; rw [if_pos rfl] at h; injection h with h; subst h; decide
  rw [if_neg h4] at h
  by_cases h5 : l = ['M', 'a', 'y']
  · subst h5; rw [if_pos rfl] at h; injection h with h; subst h; decide
  rw [if_neg h5] at h
  by_cases h6 : l = ['J', 'u', 'n']
  · subst h6; rw [if_pos rfl] at h; injection h with h; subst h; decide
  rw [if_neg h6] at h
  by_cases h7 : l = ['J', 'u', 'l']
  · subst h7; rw [if_pos rfl] at h; injection h with h; subst h; decide
  rw [if_neg h7] at h
  by_cases h8 : l = ['A', 'u', 'g']
  · subst h8; rw [if_pos rfl] at h; injection h with h; subst h; decide
  rw [if_neg h8] at h
  by_cases h9 : l = ['S', 'e', 'p']
  · subst h9; rw [if_pos rfl] at h; injection h with h; subst h; decide
  rw [if_neg h9] at h
  by_cases h10 : l = ['O', 'c', 't']
  · subst h10; rw [if_pos rfl] at h; injection h with h; subst h; decide
  rw [if_neg h10] at h
  by_cases h11 : l = ['N', 'o', 'v']
  · subst h11; rw [if_pos rfl] at h; injection h with h; subst h; decide
  rw [if_neg h11] at h
  by_cases h12 : l = ['D', 'e', 'c']
  · subst h12; rw [if_pos rfl] at h; injection h with h; subst h; decide
  rw [if_neg h12] at h
  exact absurd h (by simp)

/-- Parsing is left-inverse to formatting: a string accepted by
`cd_to_datetime` is reproduced exactly by `datetime_to_str`. -/
lemma cd_to_datetime_inv {s : String} {t : PyDatetime}
    (h : cd_to_datetime s = some t) : datetime_to_str t = s := by
  unfold cd_to_datetime at h
  split at h
  · rename_i y1 y2 y3 y4 s1 m1 m2 m3 s2 d1 d2 s3 k1 k2 s4 n1 n2 heq
    split at h
    · rename_i hsep
      obtain ⟨e1, e2, e3, e4⟩ := hsep
      subst e1; subst e2; subst e3; subst e4
      simp only [Option.bind_eq_some] at h
      obtain ⟨y, hy, mo, hmo, dd, hdd, hk, hhk, nn, hnn, hfin⟩ := h
      split at hfin
      · injection hfin with hfin
        subst hfin
        obtain ⟨hy9, hpad4⟩ := parse4_inv hy
        obtain ⟨hmo1, hmo2, habbrev⟩ := monthOfAbbrev_inv hmo
        obtain ⟨hd9, hpadd⟩ := parse2_inv hdd
        obtain ⟨hh9, hpadh⟩ := parse2_inv hhk
        obtain ⟨hn9, hpadn⟩ := parse2_inv hnn
        show String.mk (pad4 y ++ '-' :: monthAbbrev mo ++ '-' :: pad2 dd
          ++ ' ' :: pad2 hk ++ ':' :: pad2 nn) = s
        rw [hpad4, habbrev, hpadd, hpadh, hpadn]
        have hs : s = String.mk s.data := rfl
        rw [hs, heq]
        rfl
      · exact absurd hfin (by simp)
    · exact absurd h (by simp)
  · exact absurd h (by simp)

/-- C6: for a `CloseApproach` constructed from a time string in the fixed
`YYYY-MMM-DD HH:MM` layout, `time_str` reproduces the input string exactly,
so re-parsing it yields the stored date-time (to minute precision). -/
theorem time_str_roundtrip (desig timeStr dist vel : String) (ca : CloseApproach)
    (h : mkCloseApproach desig timeStr dist vel = some ca) :
    ca.time_str = timeStr ∧ cd_to_datetime ca.time_str = some ca.time := by
  simp only [mkCloseApproach, Option.bind_eq_some, Option.map_eq_some'] at h
  obtain ⟨t, ht, di, hdi, v, hv, hca⟩ := h
  subst hca
  have hfmt : datetime_to_str t = timeStr := cd_to_datetime_inv ht
  constructor
  · exact hfmt
  · show cd_to_datetime (datetime_to_str t) = some t
    rw [hfmt]
    exact ht

/-- Witness for C6: the scenario `time = "2020-Jan-01 12:30"` gives
`time_str == "2020-Jan-01 12:30"` exactly. -/
theorem time_str_roundtrip_witness :
    CloseApproach.time_str
      (CloseApproach.mk "433" (PyDatetime.mk 2020 1 1 12 30)
        (PyFloat.num (mkRat 2 100)) (PyFloat.num (mkRat 562 100)) none)
      = "2020-Jan-01 12:30" ∧
    cd_to_datetime (CloseApproach.time_str
      (CloseApproach.mk "433" (PyDatetime.mk 2020 1 1 12 30)
        (PyFloat.num (mkRat 2 100)) (PyFloat.num (mkRat 562 100)) none))
      = some (CloseApproach.time
          (CloseApproach.mk "433" (PyDatetime.mk 2020 1 1 12 30)
            (PyFloat.num (mkRat 2 100)) (PyFloat.num (mkRat 562 100)) none)) :=
  time_str_roundtrip "433" "2020-Jan-01 12:30" "0.02" "5.62" _ rfl
